import Mathlib

/-!
Shallow embedding of `src/plugins/Wallet/js/sagas/wallet.js` (Sia-UI wallet
plugin sagas).  Each saga is modelled as a pure function from its inputs —
the triggering action's payload and the outcome of the HTTP call it makes —
to the list of effects it performs, in order.  Effects are the observable
actions of the orchestrator: HTTP calls (`siadCall`), dispatched store
actions (`put`), waits for a dispatched action (`take`), diagnostic logs
(`console.error`) and user-visible notifications (`SiaAPI.showError`).
-/

namespace SiaWallet

/-- A JavaScript error value as the sagas observe it: `message` may be
`undefined` (modelled as `none`), and `toString()` always yields a string. -/
structure JsError where
  message : Option String
  toStr : String
deriving DecidableEq, Repr

/-- The JSON object returned by `GET /wallet`, restricted to the fields the
sagas read.  The three siacoin balances are smallest-unit (hastings)
integers; `siafundbalance` is an integer the code passes through untouched. -/
structure WalletResponse where
  unlocked : Bool
  encrypted : Bool
  confirmedsiacoinbalance : Int
  unconfirmedincomingsiacoins : Int
  unconfirmedoutgoingsiacoins : Int
  siafundbalance : Nat
deriving DecidableEq, Repr

/-- The JSON object returned by `POST /wallet/init`: the generated seed. -/
structure InitResponse where
  primaryseed : String
deriving DecidableEq, Repr

/-- The JSON object returned by `GET /wallet/address`. -/
structure AddressResponse where
  address : String
deriving DecidableEq, Repr

/-- The JSON object returned by `GET /consensus`, restricted to `synced`. -/
structure ConsensusResponse where
  synced : Bool
deriving DecidableEq, Repr

/-- Payload of a SEND_CURRENCY action.  In JavaScript each field may be
`undefined` (modelled as `none`) or any string, including the empty one. -/
structure SendAction where
  currencytype : Option String
  amount : Option String
  destination : Option String
deriving DecidableEq, Repr

/-- Store actions dispatched (`put`) by the sagas, from
`actions/wallet.js` and `actions/error.js`. -/
inductive Action where
  | setLocked
  | setUnlocked
  | setEncrypted
  | setUnencrypted
  | handlePasswordChange (password : String)
  | walletUnlockError (message : Option String)
  | showNewWalletDialog (seed seedConfirmation : String)
  | dismissNewWalletDialog
  | setBalance (confirmed unconfirmed : String) (siafundbalance : Nat)
  | setTransactions (transactions : List String)
  | setReceiveAddress (address : String)
  | showReceivePrompt
  | setSyncState (synced : Bool)
  | closeSendPrompt
  | getBalance
  | getTransactions
  | setSendAmount (amount : String)
  | setSendAddress (address : String)
deriving DecidableEq, Repr

/-- Modelled from the spec: the action-creator and constants modules
(`actions/wallet.js`, `constants/wallet.js`) are not under `src/`.  Following
the redux convention the spec describes, every dispatched action is a tagged
value and `take(constant)` matches on the tag; each creator produces a
distinct tag named after it. -/
def actionType : Action → String
  | .setLocked => "SET_LOCKED"
  | .setUnlocked => "SET_UNLOCKED"
  | .setEncrypted => "SET_ENCRYPTED"
  | .setUnencrypted => "SET_UNENCRYPTED"
  | .handlePasswordChange _ => "HANDLE_PASSWORD_CHANGE"
  | .walletUnlockError _ => "WALLET_UNLOCK_ERROR"
  | .showNewWalletDialog _ _ => "SHOW_NEW_WALLET_DIALOG"
  | .dismissNewWalletDialog => "DISMISS_NEW_WALLET_DIALOG"
  | .setBalance _ _ _ => "SET_BALANCE"
  | .setTransactions _ => "SET_TRANSACTIONS"
  | .setReceiveAddress _ => "SET_RECEIVE_ADDRESS"
  | .showReceivePrompt => "SHOW_RECEIVE_PROMPT"
  | .setSyncState _ => "SET_SYNCSTATE"
  | .closeSendPrompt => "CLOSE_SEND_PROMPT"
  | .getBalance => "GET_BALANCE"
  | .getTransactions => "GET_TRANSACTIONS"
  | .setSendAmount _ => "SET_SEND_AMOUNT"
  | .setSendAddress _ => "SET_SEND_ADDRESS"

/-- An HTTP request handed to `siadCall`.  A bare string argument in the
source is a GET request for that url. -/
structure Request where
  url : String
  method : String := "GET"
  timeout : Option Nat := none
  qs : List (String × String) := []
deriving DecidableEq, Repr

/-- One observable effect performed by a saga. -/
inductive Effect where
  | call (req : Request)
  | put (a : Action)
  | take (actionTag : String)
  | log (msg : String)
  | notify (title content : String)
deriving DecidableEq, Repr

/-- The `sendError` helper (wallet.js lines 9-14): shows a titled
notification whose content is `e.message` when defined, else `e.toString()`. -/
def sendErrorContent (e : JsError) : String :=
  match e.message with
  | some m => m
  | none => e.toStr

/-- The notification effect produced by `sendError`. -/
def sendError (e : JsError) : Effect :=
  Effect.notify "Sia-UI Wallet Error" (sendErrorContent e)

/-- The request `siadCall('/wallet')` makes. -/
def walletGetRequest : Request := { url := "/wallet" }

/-- `getLockStatusSaga` (lines 22-38): calls `/wallet`; dispatches
setLocked/setUnlocked from `unlocked` and setEncrypted/setUnencrypted from
`encrypted`; on failure only logs. -/
def getLockStatusSaga (o : Except JsError WalletResponse) : List Effect :=
  Effect.call walletGetRequest ::
    match o with
    | .ok response =>
        (if !response.unlocked then [Effect.put Action.setLocked]
         else [Effect.put Action.setUnlocked]) ++
        (if response.encrypted then [Effect.put Action.setEncrypted]
         else [Effect.put Action.setUnencrypted])
    | .error e => [Effect.log ("error fetching lock status: " ++ e.toStr)]

/-- The request built by `walletUnlockSaga` (lines 45-52): POST
`/wallet/unlock`, `timeout: 12000000` milliseconds, the password in the
query string. -/
def unlockRequest (password : String) : Request :=
  { url := "/wallet/unlock"
    method := "POST"
    timeout := some 12000000
    qs := [("encryptionpassword", password)] }

/-- `walletUnlockSaga` (lines 43-60): on success dispatches setEncrypted,
setUnlocked and clears the password field; on failure clears the password
field and dispatches `walletUnlockError(e.message)`. -/
def walletUnlockSaga (password : String) (o : Except JsError Unit) :
    List Effect :=
  Effect.call (unlockRequest password) ::
    match o with
    | .ok _ =>
        [Effect.put Action.setEncrypted,
         Effect.put Action.setUnlocked,
         Effect.put (Action.handlePasswordChange "")]
    | .error e =>
        [Effect.put (Action.handlePasswordChange ""),
         Effect.put (Action.walletUnlockError e.message)]

/-- `walletLockSaga` (lines 62-73). -/
def walletLockSaga (o : Except JsError Unit) : List Effect :=
  Effect.call { url := "/wallet/lock", method := "POST" } ::
    match o with
    | .ok _ => [Effect.put Action.setEncrypted, Effect.put Action.setLocked]
    | .error e => [sendError e]

/-- `createWalletSaga` (lines 77-92): POST `/wallet/init` with
`dictionary=english`; on success shows the new-wallet dialog carrying the
seed twice, waits (`take`) for a SET_UNLOCKED action, then dismisses the
dialog; on failure shows a generic notification. -/
def createWalletSaga (o : Except JsError InitResponse) : List Effect :=
  Effect.call
      { url := "/wallet/init", method := "POST"
        qs := [("dictionary", "english")] } ::
    match o with
    | .ok response =>
        [Effect.put
           (Action.showNewWalletDialog response.primaryseed response.primaryseed),
         Effect.take "SET_UNLOCKED",
         Effect.put Action.dismissNewWalletDialog]
    | .error e => [sendError e]

/-- Modelled from the spec: `SiaAPI.hastingsToSiacoins` (a currency helper
of the application, not under `src/`) divides the smallest-unit integer by
a fixed ratio to reach the display unit.  The ratio is fixed by the worked
example of the spec, where 2_500_000_000_000_000_000_000_000 smallest units
display as 2500.00, so one display unit is 10^21 smallest units. -/
def hastingsToSiacoins (hastings : Int) : ℚ :=
  (hastings : ℚ) / (10 ^ 21 : ℚ)

/-- Modelled from the spec: `.round(2)` of the application's big-number
library rounds to 2 decimal places (half up); the result is returned here
as an integer count of hundredths. -/
def round2 (q : ℚ) : ℤ :=
  ⌊q * 100 + 1 / 2⌋

/-- Renders a natural number of hundredths as a decimal string with two
digits after the point. -/
def fmtCentsNat (n : Nat) : String :=
  toString (n / 100) ++ "." ++
    (if n % 100 < 10 then "0" ++ toString (n % 100) else toString (n % 100))

/-- Renders an integer number of hundredths as a signed decimal string. -/
def fmtCents (c : Int) : String :=
  if c < 0 then "-" ++ fmtCentsNat (-c).toNat else fmtCentsNat c.toNat

/-- Modelled from the spec: `.round(2).toString()` on a display-unit
value — the 2-decimal decimal-string representation the spec requires
(section 4.1 GetBalance and the section 8 worked example). -/
def round2String (q : ℚ) : String :=
  fmtCents (round2 q)

/-- `getBalanceSaga` (lines 95-106): calls `/wallet`, converts the
confirmed balance and the unconfirmed delta (incoming minus outgoing) to
display units, rounds both to 2 decimals, dispatches `setBalance` with the
two strings and the untouched siafund balance; on failure only logs. -/
def getBalanceSaga (o : Except JsError WalletResponse) : List Effect :=
  Effect.call walletGetRequest ::
    match o with
    | .ok response =>
        [Effect.put
           (Action.setBalance
             (round2String (hastingsToSiacoins response.confirmedsiacoinbalance))
             (round2String
               (hastingsToSiacoins response.unconfirmedincomingsiacoins -
                 hastingsToSiacoins response.unconfirmedoutgoingsiacoins))
             response.siafundbalance)]
    | .error e => [Effect.log ("error fetching balance: " ++ e.toStr)]

/-- Modelled from the spec: `parseRawTransactions` (helpers.js, not under
`src/`) normalizes the raw transaction list; no claim depends on its
content, so the normalized record is modelled by the raw entry itself. -/
def parseRawTransactions (response : List String) : List String :=
  response

/-- `getTransactionsSaga` (lines 109-117). -/
def getTransactionsSaga (o : Except JsError (List String)) : List Effect :=
  Effect.call { url := "/wallet/transactions?startheight=0&endheight=-1" } ::
    match o with
    | .ok response =>
        [Effect.put (Action.setTransactions (parseRawTransactions response))]
    | .error e => [Effect.log ("error fetching transactions: " ++ e.toStr)]

/-- `getNewReceiveAddressSaga` (lines 119-127). -/
def getNewReceiveAddressSaga (o : Except JsError AddressResponse) :
    List Effect :=
  Effect.call { url := "/wallet/address" } ::
    match o with
    | .ok response =>
        [Effect.put (Action.setReceiveAddress response.address),
         Effect.put Action.showReceivePrompt]
    | .error e => [sendError e]

/-- The first validation of `sendCurrencySaga` (line 131): any of the three
fields undefined or the empty string. -/
def invalidFields (a : SendAction) : Bool :=
  a.currencytype == none || a.amount == none || a.destination == none ||
    a.amount == some "" || a.currencytype == some "" || a.destination == some ""

/-- The second validation of `sendCurrencySaga` (line 134): the currency
type is neither siafunds nor siacoins. -/
def invalidCurrency (a : SendAction) : Bool :=
  a.currencytype != some "siafunds" && a.currencytype != some "siacoins"

/-- `sendCurrencySaga` (lines 129-154), parametrized by the
`SiaAPI.siacoinsToHastings(·).toString()` conversion (an application
currency helper outside `src/`, whose value no claim depends on).  The two
local validations throw plain objects with a `message` field, which the
catch block hands to `sendError`; `sendError` then shows exactly that
message.  On a passing validation the call is made; success closes the send
prompt, refreshes balance and transactions and clears the two input fields;
failure shows a generic notification. -/
def sendCurrencySaga (conv : String → String) (a : SendAction)
    (o : Except JsError Unit) : List Effect :=
  if invalidFields a then
    [Effect.notify "Sia-UI Wallet Error"
      "You must specify an amount and a destination to send Siacoin!"]
  else if invalidCurrency a then
    [Effect.notify "Sia-UI Wallet Error" "Invalid currency type!"]
  else
    Effect.call
        { url := "/wallet/" ++ a.currencytype.getD ""
          method := "POST"
          qs := [("destination", a.destination.getD ""),
                 ("amount",
                   if a.currencytype == some "siacoins" then
                     conv (a.amount.getD "")
                   else a.amount.getD "")] } ::
      match o with
      | .ok _ =>
          [Effect.put Action.closeSendPrompt,
           Effect.put Action.getBalance,
           Effect.put Action.getTransactions,
           Effect.put (Action.setSendAmount ""),
           Effect.put (Action.setSendAddress "")]
      | .error e => [sendError e]

/-- `getSyncStateSaga` (lines 158-165). -/
def getSyncStateSaga (o : Except JsError ConsensusResponse) : List Effect :=
  Effect.call { url := "/consensus" } ::
    match o with
    | .ok response => [Effect.put (Action.setSyncState response.synced)]
    | .error e => [Effect.log ("error fetching sync status: " ++ e.toStr)]

/-- One command handled by the orchestrator, packaged with the outcome of
the HTTP call its handler makes (the watchers at lines 168-194 route each
action kind to its saga). -/
inductive Command where
  | getLockStatus (o : Except JsError WalletResponse)
  | unlockWallet (password : String) (o : Except JsError Unit)
  | lockWallet (o : Except JsError Unit)
  | createWallet (o : Except JsError InitResponse)
  | getBalance (o : Except JsError WalletResponse)
  | getTransactions (o : Except JsError (List String))
  | getNewReceiveAddress (o : Except JsError AddressResponse)
  | sendCurrency (conv : String → String) (a : SendAction)
      (o : Except JsError Unit)
  | getSyncState (o : Except JsError ConsensusResponse)

/-- The effect trace of one command: dispatch to its saga. -/
def runCommand : Command → List Effect
  | .getLockStatus o => getLockStatusSaga o
  | .unlockWallet pw o => walletUnlockSaga pw o
  | .lockWallet o => walletLockSaga o
  | .createWallet o => createWalletSaga o
  | .getBalance o => getBalanceSaga o
  | .getTransactions o => getTransactionsSaga o
  | .getNewReceiveAddress o => getNewReceiveAddressSaga o
  | .sendCurrency conv a o => sendCurrencySaga conv a o
  | .getSyncState o => getSyncStateSaga o

/-- Terminal error outcomes: a user-visible notification, the dedicated
unlock-error action, or the diagnostic log the silently-degrading handlers
emit on failure (the spec's two error classes, section 7). -/
def isTerminalError : Effect → Bool
  | .notify _ _ => true
  | .put (.walletUnlockError _) => true
  | .log _ => true
  | _ => false

/-- The distinguished success event of each command kind: the dispatch that
occurs exactly when the command's success path ran to completion. -/
def isSuccessEvent : Command → Effect → Bool
  | .getLockStatus _, .put .setEncrypted => true
  | .getLockStatus _, .put .setUnencrypted => true
  | .unlockWallet _ _, .put .setUnlocked => true
  | .lockWallet _, .put .setLocked => true
  | .createWallet _, .put (.showNewWalletDialog _ _) => true
  | .getBalance _, .put (.setBalance _ _ _) => true
  | .getTransactions _, .put (.setTransactions _) => true
  | .getNewReceiveAddress _, .put .showReceivePrompt => true
  | .sendCurrency _ _ _, .put .closeSendPrompt => true
  | .getSyncState _, .put (.setSyncState _) => true
  | _, _ => false

/-- Number of times a trace dispatches exactly the action `a`. -/
def countPut (a : Action) (tr : List Effect) : Nat :=
  tr.countP fun e => decide (e = Effect.put a)

/-- Matches a dispatch of `setSendAmount` with any payload. -/
def isSetSendAmountPut : Effect → Bool
  | .put (.setSendAmount _) => true
  | _ => false

/-- Matches a dispatch of `setSendAddress` with any payload. -/
def isSetSendAddressPut : Effect → Bool
  | .put (.setSendAddress _) => true
  | _ => false

/-- Resolves a `take(tag)`: the stream of dispatched actions after the
first one whose tag matches, or `none` when no such action ever arrives. -/
def takeMatch (tag : String) : List Action → Option (List Action)
  | [] => none
  | a :: rest => if actionType a = tag then some rest else takeMatch tag rest

/-- Runs an effect trace against a stream of actions dispatched by the
rest of the application: a `take` suspends until an action with the
matching tag is dispatched and never resumes if none arrives (redux-saga's
`take(pattern)` matches on the action type alone, whatever dispatched it). -/
def runEffects : List Effect → List Action → List Effect
  | [], _ => []
  | Effect.take tag :: rest, stream =>
      match takeMatch tag stream with
      | some stream' => Effect.take tag :: runEffects rest stream'
      | none => []
  | e :: rest, stream => e :: runEffects rest stream

/-- Rounding an integral display value to two decimals yields its count of
hundredths. -/
theorem round2_intCast (k : ℤ) : round2 (k : ℚ) = k * 100 := by
  unfold round2
  have h : ((k : ℚ) * 100 + 1 / 2) = ((k * 100 : ℤ) : ℚ) + (1 / 2 : ℚ) := by
    push_cast
    ring
  rw [h, Int.floor_int_add]
  have h12 : ⌊(1 / 2 : ℚ)⌋ = 0 := by
    rw [show (1 / 2 : ℚ) = ((1 : ℤ) : ℚ) / ((2 : ℕ) : ℚ) by norm_num,
      Rat.floor_intCast_div_natCast]
    decide
  rw [h12, add_zero]

/-- C1: for every command handled by the orchestrator, exactly one terminal
outcome is emitted — the command's distinguished success event, or an error
report on the command's failure channel (a user-visible notification, the
dedicated unlock-error dispatch, or the diagnostic log of the silently
degrading handlers, the spec's two error classes of section 7) — never both
and never neither. -/
theorem command_exactly_one_terminal_outcome (cmd : Command) :
    (runCommand cmd).countP isTerminalError +
      (runCommand cmd).countP (isSuccessEvent cmd) = 1 := by
  cases cmd with
  | getLockStatus o =>
      cases o with
      | ok r =>
          obtain ⟨u, enc, cb, ui, uo, sf⟩ := r
          cases u <;> cases enc <;> rfl
      | error e => rfl
  | unlockWallet pw o => cases o with
      | ok u => rfl
      | error e => rfl
  | lockWallet o => cases o with
      | ok u => rfl
      | error e => rfl
  | createWallet o => cases o with
      | ok r => rfl
      | error e => rfl
  | getBalance o => cases o with
      | ok r => rfl
      | error e => rfl
  | getTransactions o => cases o with
      | ok r => rfl
      | error e => rfl
  | getNewReceiveAddress o => cases o with
      | ok r => rfl
      | error e => rfl
  | sendCurrency conv a o =>
      cases h1 : invalidFields a with
      | true =>
          simp only [runCommand, sendCurrencySaga, h1, if_true]
          rfl
      | false =>
          cases h2 : invalidCurrency a with
          | true =>
              simp only [runCommand, sendCurrencySaga, h1, h2,
                Bool.false_eq_true, if_false, if_true]
              rfl
          | false =>
              cases o with
              | ok u => simp [runCommand, sendCurrencySaga, h1, h2,
                  isSuccessEvent, isTerminalError, List.countP_cons]
              | error e => simp [runCommand, sendCurrencySaga, h1, h2,
                  isSuccessEvent, isTerminalError, sendError, List.countP_cons]
  | getSyncState o => cases o with
      | ok r => rfl
      | error e => rfl

/-- C2: the claim (and the source's own comment, line 48) say the unlock
request carries a 20 minute timeout; the code passes `timeout: 12000000`
milliseconds, which is 200 minutes, ten times the documented value.  The
password is indeed passed as a query parameter. -/
theorem unlockRequest_timeout_value (password : String) :
    (unlockRequest password).url = "/wallet/unlock" ∧
    (unlockRequest password).method = "POST" ∧
    (unlockRequest password).qs = [("encryptionpassword", password)] ∧
    (unlockRequest password).timeout = some 12000000 ∧
    12000000 ≠ 20 * 60 * 1000 :=
  ⟨rfl, rfl, rfl, rfl, by decide⟩

/-- C3: whenever a SendCurrency payload has an undefined or empty amount,
destination or currency type, or a currency type other than siacoins or
siafunds, the handler's whole trace is a single descriptive error
notification — no conversion (the trace does not depend on `conv`) and no
network call are performed. -/
theorem sendCurrency_invalid_fails_before_call (conv : String → String)
    (a : SendAction) (o : Except JsError Unit)
    (h : invalidFields a = true ∨ invalidCurrency a = true) :
    sendCurrencySaga conv a o =
        [Effect.notify "Sia-UI Wallet Error"
          "You must specify an amount and a destination to send Siacoin!"] ∨
      sendCurrencySaga conv a o =
        [Effect.notify "Sia-UI Wallet Error" "Invalid currency type!"] := by
  cases h1 : invalidFields a with
  | true =>
      left
      simp [sendCurrencySaga, h1]
  | false =>
      rcases h with h | h
      · exact absurd (h1 ▸ h) (by decide)
      · right
        simp [sendCurrencySaga, h1, h]

/-- Witness for C3: the spec's own example, currencyType = "bogus". -/
theorem sendCurrency_invalid_witness :
    sendCurrencySaga id ⟨some "bogus", some "5", some "addr"⟩ (.ok ()) =
        [Effect.notify "Sia-UI Wallet Error"
          "You must specify an amount and a destination to send Siacoin!"] ∨
      sendCurrencySaga id ⟨some "bogus", some "5", some "addr"⟩ (.ok ()) =
        [Effect.notify "Sia-UI Wallet Error" "Invalid currency type!"] :=
  sendCurrency_invalid_fails_before_call id ⟨some "bogus", some "5", some "addr"⟩
    (.ok ()) (Or.inr (by decide))

/-- C4: on a successful GetBalance response the confirmed balance and the
unconfirmed delta (incoming minus outgoing) are converted to display units,
rounded to 2 decimal places and dispatched as decimal strings, with the
siafund balance passed through unmodified; on the spec's worked input
(confirmed = 2_500_000_000_000_000_000_000_000 smallest units, zero
unconfirmed flows, siafundbalance = 10) the dispatched event is
SetBalance("2500.00", "0.00", 10). -/
theorem getBalance_display_conversion :
    (∀ r : WalletResponse, getBalanceSaga (.ok r) =
      [Effect.call walletGetRequest,
       Effect.put (Action.setBalance
         (round2String (hastingsToSiacoins r.confirmedsiacoinbalance))
         (round2String (hastingsToSiacoins r.unconfirmedincomingsiacoins -
           hastingsToSiacoins r.unconfirmedoutgoingsiacoins))
         r.siafundbalance)]) ∧
    getBalanceSaga (.ok ⟨true, true, 2500000000000000000000000, 0, 0, 10⟩) =
      [Effect.call walletGetRequest,
       Effect.put (Action.setBalance "2500.00" "0.00" 10)] := by
  refine ⟨fun r => rfl, ?_⟩
  have hc : round2String
      (hastingsToSiacoins (2500000000000000000000000 : Int)) = "2500.00" := by
    unfold round2String
    rw [show hastingsToSiacoins (2500000000000000000000000 : Int) =
        ((2500 : ℤ) : ℚ) by unfold hastingsToSiacoins; norm_num, round2_intCast]
    decide
  have hu : round2String
      (hastingsToSiacoins (0 : Int) - hastingsToSiacoins (0 : Int)) = "0.00" := by
    unfold round2String
    rw [show hastingsToSiacoins (0 : Int) - hastingsToSiacoins (0 : Int) =
        ((0 : ℤ) : ℚ) by unfold hastingsToSiacoins; norm_num, round2_intCast]
    decide
  show [Effect.call walletGetRequest,
      Effect.put (Action.setBalance
        (round2String (hastingsToSiacoins (2500000000000000000000000 : Int)))
        (round2String (hastingsToSiacoins (0 : Int) -
          hastingsToSiacoins (0 : Int)))
        10)] = _
  rw [hc, hu]

/-- C5: every successful GetLockStatus response dispatches exactly one of
setLocked/setUnlocked (setLocked precisely when `unlocked` is false) and
exactly one of setEncrypted/setUnencrypted (setEncrypted precisely when
`encrypted` is true). -/
theorem getLockStatus_exclusive_events (r : WalletResponse) :
    countPut Action.setLocked (getLockStatusSaga (.ok r)) =
        (if r.unlocked then 0 else 1) ∧
    countPut Action.setUnlocked (getLockStatusSaga (.ok r)) =
        (if r.unlocked then 1 else 0) ∧
    countPut Action.setEncrypted (getLockStatusSaga (.ok r)) =
        (if r.encrypted then 1 else 0) ∧
    countPut Action.setUnencrypted (getLockStatusSaga (.ok r)) =
        (if r.encrypted then 0 else 1) := by
  obtain ⟨u, enc, cb, ui, uo, sf⟩ := r
  cases u <;> cases enc <;> exact ⟨rfl, rfl, rfl, rfl⟩

/-- C6: with a fully valid SendCurrency payload, the success path clears
sendAmount and sendAddress and dispatches exactly one balance refresh and
one transaction refresh; the failure path dispatches no field-clearing
event at all. -/
theorem sendCurrency_success_clears_failure_preserves (conv : String → String)
    (a : SendAction)
    (h1 : invalidFields a = false) (h2 : invalidCurrency a = false) :
    (countPut Action.getBalance (sendCurrencySaga conv a (.ok ())) = 1 ∧
     countPut Action.getTransactions (sendCurrencySaga conv a (.ok ())) = 1 ∧
     countPut (Action.setSendAmount "") (sendCurrencySaga conv a (.ok ())) = 1 ∧
     countPut (Action.setSendAddress "") (sendCurrencySaga conv a (.ok ())) = 1) ∧
    ∀ e : JsError,
      (sendCurrencySaga conv a (.error e)).countP isSetSendAmountPut = 0 ∧
      (sendCurrencySaga conv a (.error e)).countP isSetSendAddressPut = 0 := by
  constructor
  · simp only [sendCurrencySaga, h1, h2, Bool.false_eq_true, if_false]
    exact ⟨rfl, rfl, rfl, rfl⟩
  · intro e
    simp only [sendCurrencySaga, h1, h2, Bool.false_eq_true, if_false]
    exact ⟨rfl, rfl⟩

/-- Witness for C6: a valid siacoin send, succeeding and failing. -/
theorem sendCurrency_clears_witness :
    (countPut Action.getBalance
        (sendCurrencySaga id ⟨some "siacoins", some "5", some "addr"⟩ (.ok ())) = 1 ∧
     countPut (Action.setSendAmount "")
        (sendCurrencySaga id ⟨some "siacoins", some "5", some "addr"⟩ (.ok ())) = 1) ∧
    (sendCurrencySaga id ⟨some "siacoins", some "5", some "addr"⟩
        (.error ⟨some "boom", "Error: boom"⟩)).countP isSetSendAmountPut = 0 :=
  ⟨⟨(sendCurrency_success_clears_failure_preserves id
        ⟨some "siacoins", some "5", some "addr"⟩ rfl rfl).1.1,
    (sendCurrency_success_clears_failure_preserves id
        ⟨some "siacoins", some "5", some "addr"⟩ rfl rfl).1.2.2.1⟩,
   ((sendCurrency_success_clears_failure_preserves id
        ⟨some "siacoins", some "5", some "addr"⟩ rfl rfl).2
      ⟨some "boom", "Error: boom"⟩).1⟩

/-- C7: every failing UnlockWallet command clears the password field and
dispatches the dedicated unlock-error event, the field-clear strictly
before the error event. -/
theorem unlock_failure_clears_then_errors (password : String) (e : JsError) :
    walletUnlockSaga password (.error e) =
      [Effect.call (unlockRequest password),
       Effect.put (Action.handlePasswordChange ""),
       Effect.put (Action.walletUnlockError e.message)] ∧
    ∃ i j : Nat, i < j ∧
      (walletUnlockSaga password (.error e))[i]? =
        some (Effect.put (Action.handlePasswordChange "")) ∧
      (walletUnlockSaga password (.error e))[j]? =
        some (Effect.put (Action.walletUnlockError e.message)) :=
  ⟨rfl, 1, 2, by decide, rfl, rfl⟩

/-- Resolution of a `take`: no suffix is returned exactly when no dispatched
action of the stream carries the awaited tag. -/
theorem takeMatch_eq_none_iff (tag : String) (stream : List Action) :
    takeMatch tag stream = none ↔ ∀ a ∈ stream, actionType a ≠ tag := by
  induction stream with
  | nil => simp [takeMatch]
  | cons a rest ih =>
      by_cases h : actionType a = tag <;> simp [takeMatch, h, ih]

/-- C8: CreateWallet never emits DismissNewWalletDialog before the awaited
SET_UNLOCKED dispatch, which itself comes after ShowNewWalletDialog; the
seed of the response is carried in ShowNewWalletDialog twice, as both the
displayed seed and the confirmation value. -/
theorem createWallet_dismiss_needs_unlock :
    (∀ (o : Except JsError InitResponse) (i : Nat),
        (createWalletSaga o)[i]? = some (Effect.put Action.dismissNewWalletDialog) →
        ∃ j k : Nat, j < k ∧ k < i ∧
          (∃ s, (createWalletSaga o)[j]? =
            some (Effect.put (Action.showNewWalletDialog s s))) ∧
          (createWalletSaga o)[k]? = some (Effect.take "SET_UNLOCKED")) ∧
    ∀ r : InitResponse, createWalletSaga (.ok r) =
      [Effect.call
         { url := "/wallet/init", method := "POST"
           qs := [("dictionary", "english")] },
       Effect.put (Action.showNewWalletDialog r.primaryseed r.primaryseed),
       Effect.take "SET_UNLOCKED",
       Effect.put Action.dismissNewWalletDialog] := by
  refine ⟨fun o i h => ?_, fun r => rfl⟩
  cases o with
  | ok r =>
      match i, h with
      | 3, _ => exact ⟨1, 2, by decide, by decide, ⟨r.primaryseed, rfl⟩, rfl⟩
  | error e =>
      rcases i with _ | _ | i <;>
        simp [createWalletSaga, sendError] at h

/-- Witness for C8: the success trace at a concrete seed, checked at the
index of the dismiss event. -/
theorem createWallet_dismiss_witness :
    ∃ j k : Nat, j < k ∧ k < 3 ∧
      (∃ s, (createWalletSaga (.ok ⟨"seed words"⟩))[j]? =
        some (Effect.put (Action.showNewWalletDialog s s))) ∧
      (createWalletSaga (.ok ⟨"seed words"⟩))[k]? =
        some (Effect.take "SET_UNLOCKED") :=
  createWallet_dismiss_needs_unlock.1 (.ok ⟨"seed words"⟩) 3 rfl

/-- C9: the wait of CreateWallet is released by the first dispatched action
carrying the SET_UNLOCKED tag whatever dispatched it — in particular the
setUnlocked dispatch of a background GetLockStatus poll on an unlocked
response — and exactly then is DismissNewWalletDialog emitted. -/
theorem createWallet_released_by_any_setUnlocked (r : InitResponse)
    (stream : List Action) :
    (Effect.put Action.dismissNewWalletDialog ∈
        runEffects (createWalletSaga (.ok r)) stream ↔
      ∃ a ∈ stream, actionType a = "SET_UNLOCKED") ∧
    actionType Action.setUnlocked = "SET_UNLOCKED" ∧
    ∀ w : WalletResponse, w.unlocked = true →
      Effect.put Action.setUnlocked ∈ getLockStatusSaga (.ok w) := by
  refine ⟨?_, rfl, fun w hw => by simp [getLockStatusSaga, hw]⟩
  constructor
  · intro hmem
    by_contra hne
    push_neg at hne
    have hnone : takeMatch "SET_UNLOCKED" stream = none :=
      (takeMatch_eq_none_iff _ _).2 hne
    simp [createWalletSaga, runEffects, hnone] at hmem
  · rintro ⟨a, ha, hta⟩
    have hnn : takeMatch "SET_UNLOCKED" stream ≠ none := fun hnone =>
      (takeMatch_eq_none_iff _ _).1 hnone a ha hta
    obtain ⟨s, hs⟩ := Option.ne_none_iff_exists'.mp hnn
    simp [createWalletSaga, runEffects, hs]

/-- Witness for C9: a stream whose SET_UNLOCKED dispatch comes from the
lock-status poll releases the dialog dismissal. -/
theorem createWallet_release_witness :
    Effect.put Action.dismissNewWalletDialog ∈
      runEffects (createWalletSaga (.ok ⟨"seed"⟩))
        [Action.setLocked, Action.setUnlocked] :=
  (createWallet_released_by_any_setUnlocked ⟨"seed"⟩
      [Action.setLocked, Action.setUnlocked]).1.mpr
    ⟨Action.setUnlocked, by decide, rfl⟩

/-- C10: the unlock-error event carries exactly the failure's `message`
field, undefined staying undefined, while the generic notification helper
falls back to the error's string form when `message` is undefined. -/
theorem unlock_error_exact_message (password : String) (e : JsError) :
    walletUnlockSaga password (.error e) =
      [Effect.call (unlockRequest password),
       Effect.put (Action.handlePasswordChange ""),
       Effect.put (Action.walletUnlockError e.message)] ∧
    (e.message = none → sendErrorContent e = e.toStr) ∧
    ∀ m : String, e.message = some m → sendErrorContent e = m :=
  ⟨rfl,
   fun h => by simp [sendErrorContent, h],
   fun m h => by simp [sendErrorContent, h]⟩

/-- Witness for C10: a failure whose `message` is undefined. -/
theorem unlock_error_message_witness :
    walletUnlockSaga "pw" (.error ⟨none, "Error: boom"⟩) =
      [Effect.call (unlockRequest "pw"),
       Effect.put (Action.handlePasswordChange ""),
       Effect.put (Action.walletUnlockError none)] ∧
    sendErrorContent ⟨none, "Error: boom"⟩ = "Error: boom" :=
  ⟨(unlock_error_exact_message "pw" ⟨none, "Error: boom"⟩).1,
   (unlock_error_exact_message "pw" ⟨none, "Error: boom"⟩).2.1 rfl⟩

end SiaWallet
